import Mathlib

/-!
# Verification of the IoT sensor data collector (Cassandra client)

Shallow embedding of the core operations of the repository:
* `db_connection.py` — keyspace setup (`create_keyspace_if_not_exists`),
* `schema_setup.py` — table setup (`table_exists`, `create_table`),
* `data_generator.py` — synthetic reading generation and insertion
  (`generate_sensor_reading`, `insert_sensor_reading`, `generate_and_insert_data`),
* `query_analysis.py` — reads (`get_recent_readings`, `get_average_value`,
  `get_all_devices`) and the CLI limit validation in `display_recent_readings`.

The external store is modelled as a mathematical relation, per the wire contract in
the spec (§6): a table is a list of rows keyed by `(device_id, timestamp)`
with last-write-wins upsert semantics; the `SELECT` statements denote
filter/sort/limit, distinct-projection and slice-scan over that list.
Timestamps are naturals, sensor values are rationals; the 2-decimal
`round` of Python (half-to-even rounding) is modelled exactly on rationals.
-/

namespace IoT

/-- One sensor observation, the row type of `iot_data.sensor_readings`
(`schema_setup.py`): `device_id TEXT, timestamp TIMESTAMP, sensor_type TEXT,
sensor_value DOUBLE`, primary key `(device_id, timestamp)`. -/
structure Reading where
  device_id : String
  timestamp : Nat
  sensor_type : String
  sensor_value : ℚ
deriving DecidableEq, Repr

/-- The stored table: a list of rows.  Row order is irrelevant to all reads
(each read sorts or deduplicates), so a plain list suffices. -/
abbrev Table := List Reading

/-- Errors raised by the store/driver and caught by the `except` blocks of the
Python read functions. -/
inductive DriverError where
  | invalidRequest
  | queryFailure
deriving DecidableEq, Repr

/-- The pandas `DataFrame` values returned by `get_recent_readings`: a column
header list plus rows.  `pd.DataFrame()` is `⟨[], []⟩`;
`pd.DataFrame(columns=[...])` is `⟨cols, []⟩`. -/
structure DataFrame where
  columns : List String
  rows : List Reading
deriving DecidableEq, Repr

/-- The column list used by `get_recent_readings` (`query_analysis.py:49,78`). -/
def dfColumns : List String :=
  ["device_id", "timestamp", "sensor_type", "sensor_value"]

/-- The clustering order of the table: descending by timestamp
(`WITH CLUSTERING ORDER BY (timestamp DESC)`, also the `ORDER BY timestamp
DESC` of `get_recent_readings`). -/
def tsDesc (a b : Reading) : Prop := b.timestamp ≤ a.timestamp

instance : DecidableRel tsDesc := fun a b =>
  inferInstanceAs (Decidable (b.timestamp ≤ a.timestamp))

instance : IsTotal Reading tsDesc :=
  ⟨fun a b => le_total b.timestamp a.timestamp⟩

instance : IsTrans Reading tsDesc :=
  ⟨fun _ _ _ hab hbc => le_trans hbc hab⟩

/-- Meaning of the `SELECT ... WHERE device_id = ? ORDER BY timestamp DESC
LIMIT ?` statement of `get_recent_readings` (`query_analysis.py:48-54`): the
store rejects a non-positive `LIMIT` with an invalid-request error, otherwise
it returns the rows of the partition newest first, truncated to `limit`. -/
def selectRecentSem (tbl : Table) (dev : String) (lim : Int) :
    Except DriverError (List Reading) :=
  if lim ≤ 0 then Except.error DriverError.invalidRequest
  else Except.ok
    (((tbl.filter (fun r => decide (r.device_id = dev))).insertionSort
      tsDesc).take lim.toNat)

/-- Function `get_recent_readings` (`query_analysis.py:17-82`), with the outcome of
`session.execute` abstracted: on any raised error the `except` block returns
`pd.DataFrame()`; on success the rows become a `DataFrame` with the four
schema columns (also when zero rows were found, `query_analysis.py:78`). -/
def get_recent_readings (outcome : Except DriverError (List Reading)) :
    DataFrame :=
  match outcome with
  | Except.error _ => ⟨[], []⟩
  | Except.ok rows => ⟨dfColumns, rows⟩

/-- Function `get_recent_readings` composed with the store semantics: a run in which
the network call itself does not fail. -/
def run_get_recent_readings (tbl : Table) (dev : String) (lim : Int) :
    DataFrame :=
  get_recent_readings (selectRecentSem tbl dev lim)

/-- The limit handling of `display_recent_readings`
(`query_analysis.py:201-210`): empty or unparsable input falls back to the
default 10; a parsed non-positive limit aborts (`none`) before any query;
otherwise the parsed limit is used. -/
def display_limit_check (input : Option Int) : Option Int :=
  match input with
  | none => some 10
  | some l => if l ≤ 0 then none else some l

/-- The builtin `round` of Python to the nearest integer: round-half-to-even
rounding, modelled exactly on rationals. -/
def roundEven (x : ℚ) : ℤ :=
  if x - ((⌊x⌋ : ℤ) : ℚ) < 1/2 then ⌊x⌋
  else if 1/2 < x - ((⌊x⌋ : ℤ) : ℚ) then ⌊x⌋ + 1
  else if ⌊x⌋ % 2 = 0 then ⌊x⌋ else ⌊x⌋ + 1

/-- The call `round(x, 2)` of Python: round to 2 decimal places. -/
def round2 (x : ℚ) : ℚ := ((roundEven (x * 100) : ℚ)) / 100

/-- The pandas column mean used at `query_analysis.py:131`: arithmetic mean
of a list of values. -/
def mean (vs : List ℚ) : ℚ := vs.sum / (vs.length : ℚ)

/-- The rows matching `WHERE device_id = ? AND sensor_type = ?`
(`query_analysis.py:113-117`). -/
def matchingReadings (tbl : Table) (dev ty : String) : List Reading :=
  tbl.filter (fun r => decide (r.device_id = dev ∧ r.sensor_type = ty))

/-- Meaning of the slice-scan `SELECT sensor_value ... WHERE device_id = ?
AND sensor_type = ?` used by `get_average_value`, per the store wire
contract of the spec for the aggregate read (equality on both columns, unbounded result). -/
def selectAvgSem (tbl : Table) (dev ty : String) :
    Except DriverError (List ℚ) :=
  Except.ok ((matchingReadings tbl dev ty).map (fun r => r.sensor_value))

/-- Function `get_average_value` (`query_analysis.py:85-137`) with the execute outcome
abstracted: error → `None`; zero values → `None`; otherwise the mean of the
values rounded to 2 decimal places. -/
def get_average_value (outcome : Except DriverError (List ℚ)) : Option ℚ :=
  match outcome with
  | Except.error _ => none
  | Except.ok values =>
      if values.isEmpty then none else some (round2 (mean values))

/-- Function `get_average_value` composed with the store semantics. -/
def run_get_average_value (tbl : Table) (dev ty : String) : Option ℚ :=
  get_average_value (selectAvgSem tbl dev ty)

/-- Meaning of `SELECT DISTINCT device_id FROM ...`
(`query_analysis.py:164-167`): the distinct partition keys, in store order. -/
def selectDistinctSem (tbl : Table) : Except DriverError (List String) :=
  Except.ok ((tbl.map (fun r => r.device_id)).dedup)

/-- Lexicographic comparison of character lists by code point: the string
order used by the builtin `sorted` of Python. -/
def charListLE : List Char → List Char → Bool
  | [], _ => true
  | _ :: _, [] => false
  | a :: as, b :: bs => if a = b then charListLE as bs else decide (a < b)

/-- The string order of Python: lexicographic by code point. -/
def strLE (a b : String) : Prop := charListLE a.data b.data = true

instance : DecidableRel strLE := fun _ _ =>
  inferInstanceAs (Decidable (_ = true))

/-- Function `get_all_devices` (`query_analysis.py:140-178`) with the execute outcome
abstracted: error → `[]`; otherwise `sorted(device_ids)`. -/
def get_all_devices (outcome : Except DriverError (List String)) :
    List String :=
  match outcome with
  | Except.error _ => []
  | Except.ok ids => ids.insertionSort strLE

/-- Function `get_all_devices` composed with the store semantics. -/
def run_get_all_devices (tbl : Table) : List String :=
  get_all_devices (selectDistinctSem tbl)

/-- Store semantics of a CQL `INSERT`: an upsert on the primary key
`(device_id, timestamp)` — any row with the same key is overwritten
(last-write-wins, spec §3). -/
def insertRow (tbl : Table) (r : Reading) : Table :=
  (tbl.filter (fun x =>
    decide (¬(x.device_id = r.device_id ∧ x.timestamp = r.timestamp)))) ++ [r]

/-- Function `insert_sensor_reading` (`data_generator.py:68-104`): returns `False` and
leaves the store untouched when the session/statement is unavailable or the
execute raises (`sessionOk = false`); otherwise executes the prepared
`INSERT` and returns `True`. -/
def insert_sensor_reading (sessionOk : Bool) (tbl : Table) (dev : String)
    (ts : Nat) (ty : String) (v : ℚ) : Bool × Table :=
  if sessionOk then (true, insertRow tbl ⟨dev, ts, ty, v⟩) else (false, tbl)

/-- Key uniqueness of the stored table: no two rows share the primary key
`(device_id, timestamp)`.  Holds for every table built by `insertRow`. -/
def keyUnique (tbl : Table) : Prop :=
  tbl.Pairwise (fun a b => ¬(a.device_id = b.device_id ∧ a.timestamp = b.timestamp))

instance (tbl : Table) : Decidable (keyUnique tbl) :=
  inferInstanceAs (Decidable (tbl.Pairwise _))

/-- The number of rows for `dev` strictly newer than `ts`: the rank of the
reading among the rows of the device (rank `< limit` means it is among the `limit`
most recent). -/
def newerCount (tbl : Table) (dev : String) (ts : Nat) : Nat :=
  (tbl.filter (fun x => decide (x.device_id = dev ∧ ts < x.timestamp))).length

/-- The schema state of the store: the existing keyspaces (with their replication
factor) and the existing tables, as read back through `system_schema`. -/
structure SchemaState where
  keyspaces : List (String × Int)
  tables : List (String × String)
deriving DecidableEq, Repr

/-- Outcome of a schema operation: the returned boolean, whether a `CREATE`
statement was actually issued to the store, and the resulting schema state. -/
structure SchemaResult where
  ok : Bool
  issuedCreate : Bool
  state : SchemaState
deriving DecidableEq, Repr

/-- The existence check of `create_keyspace_if_not_exists`
(`db_connection.py:70-79`): `SELECT keyspace_name FROM
system_schema.keyspaces WHERE keyspace_name = %s` has a row. -/
def keyspace_exists (st : SchemaState) (name : String) : Bool :=
  st.keyspaces.any (fun p => p.1 == name)

/-- Function `create_keyspace_if_not_exists` (`db_connection.py:48-96`): if the
keyspace already exists, return `True` at once (no `CREATE` issued, no
validation of `replication_factor`); otherwise issue the `CREATE KEYSPACE`,
which the store rejects when `replication_factor < 1` (the exception is
caught and `False` returned), and succeeds otherwise. -/
def create_keyspace_if_not_exists (st : SchemaState) (name : String)
    (rf : Int) : SchemaResult :=
  if keyspace_exists st name then ⟨true, false, st⟩
  else if rf < 1 then ⟨false, true, st⟩
  else ⟨true, true, { st with keyspaces := st.keyspaces ++ [(name, rf)] }⟩

/-- Function `table_exists` (`schema_setup.py:12-40`): the `system_schema.tables`
lookup has a row. -/
def table_exists (st : SchemaState) (ks tb : String) : Bool :=
  st.tables.any (fun p => p.1 == ks && p.2 == tb)

/-- Function `create_table` (`schema_setup.py:43-128`): short-circuit to `True` when
the table already exists, otherwise issue the `CREATE TABLE` (accepted by the
store for the well-formed names modelled here). -/
def create_table (st : SchemaState) (ks tb : String) : SchemaResult :=
  if table_exists st ks tb then ⟨true, false, st⟩
  else ⟨true, true, { st with tables := st.tables ++ [(ks, tb)] }⟩

/-- Constant `DEVICE_IDS` (`data_generator.py:21`). -/
def DEVICE_IDS : List String := ["device_1", "device_2", "device_3"]

/-- Constant `SENSOR_TYPES` (`data_generator.py:22`). -/
def SENSOR_TYPES : List String := ["temperature", "humidity", "motion"]

/-- Constant `SENSOR_RANGES` (`data_generator.py:25-29`), as a function on the three
sensor-type keys of the dict. -/
def SENSOR_RANGES (ty : String) : ℚ × ℚ :=
  if ty = "temperature" then (20, 35)
  else if ty = "humidity" then (30, 90)
  else (0, 1)

/-- One draw from the random number generator, abstracting `random.choice`
(the chosen index into `SENSOR_TYPES`), `random.uniform(a, b)` (as
`a + u * (b - a)` for a seed `u ∈ [0, 1]`) and `random.randint(0, 1)`
(a bit). -/
structure GenDraw where
  idx : Fin 3
  u : ℚ
  bit : Bool

/-- Function `generate_sensor_reading` (`data_generator.py:42-65`): pick a sensor type
by the drawn index; for `motion` return the drawn bit, otherwise
`round(uniform(min_val, max_val), 2)`. -/
def generate_sensor_reading (device_id : String) (g : GenDraw) :
    String × String × ℚ :=
  let sensor_type := SENSOR_TYPES.get (Fin.cast (by decide) g.idx)
  let mm := SENSOR_RANGES sensor_type
  if sensor_type = "motion" then
    (device_id, sensor_type, if g.bit then 1 else 0)
  else
    (device_id, sensor_type, round2 (mm.1 + g.u * (mm.2 - mm.1)))

/-- Function `generate_and_insert_data` (`data_generator.py:164-208`): sample the
timestamp once, then for each device in `DEVICE_IDS` generate a reading and
insert it with that shared timestamp.  `draw` supplies the random draw of
each device and `insOk` whether its insert succeeds. -/
def generate_and_insert_data (tbl : Table) (ts : Nat)
    (draw : String → GenDraw) (insOk : String → Bool) : Table :=
  DEVICE_IDS.foldl (fun acc dev =>
    (insert_sensor_reading (insOk dev) acc
      (generate_sensor_reading dev (draw dev)).1 ts
      (generate_sensor_reading dev (draw dev)).2.1
      (generate_sensor_reading dev (draw dev)).2.2).2) tbl

/-- Example store: one temperature reading for `device_1` (value 22.5). -/
def exTbl : Table := [⟨"device_1", 1000, "temperature", 45/2⟩]

/-- Example store of the end-to-end scenario: readings for `device_1` at
`t=1000` (temperature 22.5) and `t=2000` (temperature 24.0), written
through `insert_sensor_reading`. -/
def exTbl2 : Table :=
  (insert_sensor_reading true
    ((insert_sensor_reading true [] "device_1" 1000 "temperature" (45/2)).2)
    "device_1" 2000 "temperature" 24).2

/-- Example store: temperature readings `{10.0, 20.0, 30.0}` for `device_1`. -/
def exTbl3 : Table :=
  [⟨"device_1", 1, "temperature", 10⟩, ⟨"device_1", 2, "temperature", 20⟩,
   ⟨"device_1", 3, "temperature", 30⟩]

/-- Example store with readings for `device_3`, `device_1`, `device_2`. -/
def exTbl5 : Table :=
  [⟨"device_3", 1, "temperature", 20⟩, ⟨"device_1", 2, "humidity", 50⟩,
   ⟨"device_2", 3, "motion", 1⟩]

/-- Example RNG draws: every device draws the `motion` type with bit 0. -/
def exDraw : String → GenDraw := fun _ => ⟨2, 0, false⟩

/-- Example sweep: `generate_and_insert_data` over the empty store at
timestamp 5, all inserts succeeding. -/
def exSweep : Table := generate_and_insert_data [] 5 exDraw (fun _ => true)


/-- Example schema state: keyspace `iot_data` (replication factor 1) exists. -/
def exSchema : SchemaState := ⟨[("iot_data", 1)], []⟩

/-! ### Helper lemmas -/

theorem charListLE_total :
    ∀ as bs, charListLE as bs = true ∨ charListLE bs as = true
  | [], _ => Or.inl rfl
  | _ :: _, [] => Or.inr rfl
  | a :: as, b :: bs => by
    by_cases h : a = b
    · subst h
      simpa [charListLE] using charListLE_total as bs
    · rcases lt_or_gt_of_ne h with hlt | hgt
      · exact Or.inl (by simp [charListLE, h, hlt])
      · exact Or.inr (by simp [charListLE, Ne.symm h, hgt])

theorem charListLE_trans : ∀ as bs cs, charListLE as bs = true →
    charListLE bs cs = true → charListLE as cs = true
  | [], _, _, _, _ => rfl
  | _ :: _, [], _, h, _ => by simp [charListLE] at h
  | _ :: _, _ :: _, [], _, h => by simp [charListLE] at h
  | a :: as, b :: bs, c :: cs, h1, h2 => by
    by_cases hab : a = b <;> by_cases hbc : b = c
    · subst hab; subst hbc
      simp only [charListLE, if_pos rfl] at h1 h2 ⊢
      exact charListLE_trans as bs cs h1 h2
    · subst hab
      simpa [charListLE, hbc] using h2
    · subst hbc
      simpa [charListLE, hab] using h1
    · simp only [charListLE, if_neg hab, decide_eq_true_eq] at h1
      simp only [charListLE, if_neg hbc, decide_eq_true_eq] at h2
      have hac : a < c := lt_trans h1 h2
      simp [charListLE, ne_of_lt hac, hac]

instance : IsTotal String strLE := ⟨fun a b => charListLE_total a.data b.data⟩

instance : IsTrans String strLE :=
  ⟨fun a b c => charListLE_trans a.data b.data c.data⟩

theorem roundEven_intCast (z : ℤ) : roundEven (z : ℚ) = z := by
  unfold roundEven
  norm_num

theorem round2_intCast (z : ℤ) : round2 ((z : ℚ)) = z := by
  unfold round2
  rw [show ((z:ℚ) * 100) = ((z * 100 : ℤ) : ℚ) by push_cast; ring,
    roundEven_intCast]
  push_cast
  ring_nf

theorem selectRecentSem_pos (tbl : Table) (dev : String) (lim : Int)
    (hlim : 0 < lim) :
    selectRecentSem tbl dev lim = Except.ok
      (((tbl.filter (fun r => decide (r.device_id = dev))).insertionSort
        tsDesc).take lim.toNat) := by
  unfold selectRecentSem
  rw [if_neg (not_le.mpr hlim)]

/-! ### Claim theorems -/

/-- C1 -/
theorem recentReadings_spec (tbl : Table) (dev : String) (lim : Int)
    (hlim : 0 < lim) :
    ((run_get_recent_readings tbl dev lim).rows.length : Int) ≤ lim ∧
    List.Sorted tsDesc (run_get_recent_readings tbl dev lim).rows ∧
    ((∀ r ∈ tbl, r.device_id ≠ dev) →
      run_get_recent_readings tbl dev lim = ⟨dfColumns, []⟩) := by
  have hrun : run_get_recent_readings tbl dev lim = ⟨dfColumns,
      ((tbl.filter (fun r => decide (r.device_id = dev))).insertionSort
        tsDesc).take lim.toNat⟩ := by
    unfold run_get_recent_readings
    rw [selectRecentSem_pos tbl dev lim hlim]
    rfl
  refine ⟨?_, ?_, ?_⟩
  · rw [hrun]
    show ((((tbl.filter (fun r => decide (r.device_id = dev))).insertionSort
        tsDesc).take lim.toNat).length : Int) ≤ lim
    have h1 : (((tbl.filter (fun r => decide (r.device_id = dev))).insertionSort
        tsDesc).take lim.toNat).length ≤ lim.toNat :=
      List.length_take_le _ _
    omega
  · rw [hrun]
    exact List.Pairwise.sublist (List.take_sublist _ _)
      (List.sorted_insertionSort tsDesc _)
  · intro h
    have hfil : tbl.filter (fun r => decide (r.device_id = dev)) = [] := by
      rw [List.filter_eq_nil_iff]
      intro r hr
      simpa using h r hr
    rw [hrun, hfil]
    simp

/-- C1 witness -/
theorem recentReadings_spec_witness :
    ((0 : Int) < 2 ∧
      ((run_get_recent_readings exTbl "device_1" 2).rows.length : Int) ≤ 2 ∧
      List.Sorted tsDesc (run_get_recent_readings exTbl "device_1" 2).rows) ∧
    run_get_recent_readings exTbl "device_2" 2 = ⟨dfColumns, []⟩ := by
  refine ⟨⟨by norm_num, (recentReadings_spec exTbl "device_1" 2 (by norm_num)).1,
    (recentReadings_spec exTbl "device_1" 2 (by norm_num)).2.1⟩, ?_⟩
  refine (recentReadings_spec exTbl "device_2" 2 (by norm_num)).2.2 ?_
  intro r hr
  simp only [exTbl, List.mem_singleton] at hr
  subst hr
  decide

/-- C4 counterexample -/
theorem recentReadings_zero_limit_cex :
    selectRecentSem exTbl "device_1" 0 = Except.error DriverError.invalidRequest ∧
    run_get_recent_readings exTbl "device_1" 0 = ⟨[], []⟩ ∧
    run_get_recent_readings exTbl "device_1" (-5) = ⟨[], []⟩ :=
  ⟨rfl, rfl, rfl⟩

/-- C4 amended -/
theorem recentReadings_nonpositive_limit_spec :
    (∀ (tbl : Table) (dev : String) (lim : Int), lim ≤ 0 →
      run_get_recent_readings tbl dev lim = ⟨[], []⟩) ∧
    (∀ l : Int, l ≤ 0 → display_limit_check (some l) = none) ∧
    display_limit_check none = some 10 := by
  refine ⟨?_, ?_, rfl⟩
  · intro tbl dev lim h
    unfold run_get_recent_readings selectRecentSem
    rw [if_pos h]
    rfl
  · intro l h
    simp [display_limit_check, h]

/-- C4 witness -/
theorem recentReadings_nonpositive_limit_witness :
    ((0 : Int) ≤ 0 ∧ run_get_recent_readings exTbl2 "device_1" 0 = ⟨[], []⟩) ∧
    display_limit_check (some (-2)) = none :=
  ⟨⟨le_refl 0, recentReadings_nonpositive_limit_spec.1 exTbl2 "device_1" 0 (le_refl 0)⟩,
   recentReadings_nonpositive_limit_spec.2.1 (-2) (by norm_num)⟩

/-- C6 counterexample -/
theorem queryFailure_conflation_cex :
    get_average_value (Except.error DriverError.queryFailure) =
      get_average_value (Except.ok []) ∧
    get_average_value (Except.error DriverError.queryFailure) = none ∧
    get_all_devices (Except.error DriverError.queryFailure) =
      get_all_devices (Except.ok []) ∧
    get_all_devices (Except.error DriverError.queryFailure) = [] :=
  ⟨rfl, rfl, rfl, rfl⟩

/-- C6 amended -/
theorem queryFailure_signal_spec :
    (∀ e : DriverError, get_average_value (Except.error e) = none ∧
      get_average_value (Except.ok []) = none) ∧
    (∀ e : DriverError, get_all_devices (Except.error e) = [] ∧
      get_all_devices (Except.ok []) = []) ∧
    (∀ e : DriverError, get_recent_readings (Except.error e) = ⟨[], []⟩ ∧
      get_recent_readings (Except.ok []) = ⟨dfColumns, []⟩ ∧
      (⟨[], []⟩ : DataFrame) ≠ ⟨dfColumns, []⟩) :=
  ⟨fun _ => ⟨rfl, rfl⟩, fun _ => ⟨rfl, rfl⟩,
   fun _ => ⟨rfl, rfl, by decide⟩⟩

/-- C7 counterexample -/
theorem ensureKeyspace_existing_rf_cex :
    (0 : Int) < 1 ∧
    create_keyspace_if_not_exists exSchema "iot_data" 0 =
      ⟨true, false, exSchema⟩ :=
  ⟨by norm_num, by decide⟩

/-- C7 amended -/
theorem ensureKeyspace_rf_spec (st : SchemaState) (name : String) (rf : Int) :
    (keyspace_exists st name = false → rf < 1 →
      create_keyspace_if_not_exists st name rf = ⟨false, true, st⟩) ∧
    (keyspace_exists st name = true →
      create_keyspace_if_not_exists st name rf = ⟨true, false, st⟩) := by
  constructor
  · intro h1 h2
    simp [create_keyspace_if_not_exists, h1, h2]
  · intro h1
    simp [create_keyspace_if_not_exists, h1]

/-- C7 witness -/
theorem ensureKeyspace_rf_witness :
    (keyspace_exists ⟨[], []⟩ "iot_data" = false ∧ (0 : Int) < 1 ∧
      create_keyspace_if_not_exists ⟨[], []⟩ "iot_data" 0 =
        ⟨false, true, ⟨[], []⟩⟩) ∧
    (keyspace_exists exSchema "iot_data" = true ∧
      create_keyspace_if_not_exists exSchema "iot_data" 0 =
        ⟨true, false, exSchema⟩) :=
  ⟨⟨rfl, by norm_num,
    (ensureKeyspace_rf_spec ⟨[], []⟩ "iot_data" 0).1 rfl (by norm_num)⟩,
   ⟨rfl, (ensureKeyspace_rf_spec exSchema "iot_data" 0).2 rfl⟩⟩

/-- C8 -/
theorem ensure_idempotent (st : SchemaState) (name : String) (rf : Int)
    (ks tb : String) :
    ((create_keyspace_if_not_exists st name rf).ok = true →
      create_keyspace_if_not_exists
        (create_keyspace_if_not_exists st name rf).state name rf =
        ⟨true, false, (create_keyspace_if_not_exists st name rf).state⟩) ∧
    ((create_table st ks tb).ok = true →
      create_table (create_table st ks tb).state ks tb =
        ⟨true, false, (create_table st ks tb).state⟩) := by
  constructor
  · intro h
    by_cases h1 : keyspace_exists st name
    · simp [create_keyspace_if_not_exists, h1]
    · by_cases h2 : rf < 1
      · simp [create_keyspace_if_not_exists, h1, h2] at h
      · have hex : keyspace_exists
            { st with keyspaces := st.keyspaces ++ [(name, rf)] } name = true := by
          simp [keyspace_exists]
        simp [create_keyspace_if_not_exists, h1, h2, hex]
  · intro h
    by_cases h1 : table_exists st ks tb
    · simp [create_table, h1]
    · have hex : table_exists
          { st with tables := st.tables ++ [(ks, tb)] } ks tb = true := by
        simp [table_exists]
      simp [create_table, h1, hex]

/-- C8 witness -/
theorem ensure_idempotent_witness :
    ((create_keyspace_if_not_exists ⟨[], []⟩ "iot_data" 1).ok = true ∧
      create_keyspace_if_not_exists
        (create_keyspace_if_not_exists ⟨[], []⟩ "iot_data" 1).state "iot_data" 1 =
        ⟨true, false, (create_keyspace_if_not_exists ⟨[], []⟩ "iot_data" 1).state⟩) ∧
    ((create_table exSchema "iot_data" "sensor_readings").ok = true ∧
      create_table (create_table exSchema "iot_data" "sensor_readings").state
          "iot_data" "sensor_readings" =
        ⟨true, false, (create_table exSchema "iot_data" "sensor_readings").state⟩) :=
  ⟨⟨rfl, (ensure_idempotent ⟨[], []⟩ "iot_data" 1 "x" "y").1 rfl⟩,
   ⟨rfl, (ensure_idempotent exSchema "n" 1 "iot_data" "sensor_readings").2 rfl⟩⟩


theorem round2_ofNat (n : ℕ) : round2 ((n : ℚ)) = n := by
  have h := round2_intCast (n : ℤ)
  push_cast at h
  exact h

/-- C3 -/
theorem averageValue_spec (tbl : Table) (dev ty : String) :
    (matchingReadings tbl dev ty = [] →
      run_get_average_value tbl dev ty = none) ∧
    (matchingReadings tbl dev ty ≠ [] →
      run_get_average_value tbl dev ty =
        some (round2 (((matchingReadings tbl dev ty).map
            (fun r => r.sensor_value)).sum /
          ((matchingReadings tbl dev ty).length : ℚ)))) := by
  constructor
  · intro h
    simp [run_get_average_value, selectAvgSem, get_average_value, h]
  · intro h
    have hne : ((matchingReadings tbl dev ty).map
        (fun r => r.sensor_value)).isEmpty = false := by
      simp [List.isEmpty_iff, h]
    simp [run_get_average_value, selectAvgSem, get_average_value, hne, mean]

/-- C3 witness -/
theorem averageValue_spec_witness :
    (matchingReadings exTbl3 "device_1" "temperature" ≠ [] ∧
      run_get_average_value exTbl3 "device_1" "temperature" = some 20) ∧
    (matchingReadings exTbl3 "device_2" "temperature" = [] ∧
      run_get_average_value exTbl3 "device_2" "temperature" = none) ∧
    some (20 : ℚ) ≠ none ∧ some (20 : ℚ) ≠ some 0 := by
  refine ⟨⟨by decide, ?_⟩,
    ⟨rfl, (averageValue_spec exTbl3 "device_2" "temperature").1 rfl⟩,
    by decide, by decide⟩
  have h1 := (averageValue_spec exTbl3 "device_1" "temperature").2 (by decide)
  rw [h1,
    show (matchingReadings exTbl3 "device_1" "temperature").map
      (fun r => r.sensor_value) = [10, 20, 30] from rfl,
    show (matchingReadings exTbl3 "device_1" "temperature").length = 3 from rfl]
  have h2 : ([(10 : ℚ), 20, 30].sum / ((3 : ℕ) : ℚ)) = ((20 : ℕ) : ℚ) := by
    simp [List.sum_cons]
    norm_num
  rw [h2, round2_ofNat]
  norm_num

/-- C5 -/
theorem listDevices_spec (tbl : Table) :
    List.Sorted strLE (run_get_all_devices tbl) ∧
    (run_get_all_devices tbl).Nodup ∧
    (∀ s, s ∈ run_get_all_devices tbl ↔ ∃ r ∈ tbl, r.device_id = s) ∧
    (tbl = [] → run_get_all_devices tbl = []) := by
  have hrun : run_get_all_devices tbl =
      ((tbl.map (fun r => r.device_id)).dedup).insertionSort strLE := rfl
  refine ⟨?_, ?_, ?_, ?_⟩
  · rw [hrun]
    exact List.sorted_insertionSort strLE _
  · rw [hrun]
    exact ((List.perm_insertionSort strLE _).nodup_iff).mpr (List.nodup_dedup _)
  · intro s
    rw [hrun]
    simp [List.mem_insertionSort, List.mem_dedup, List.mem_map, eq_comm]
  · intro h
    subst h
    rfl

/-- C5 witness -/
theorem listDevices_spec_witness :
    run_get_all_devices exTbl5 = ["device_1", "device_2", "device_3"] ∧
    List.Sorted strLE (run_get_all_devices exTbl5) ∧
    (run_get_all_devices exTbl5).Nodup ∧
    ("device_2" ∈ run_get_all_devices exTbl5 ↔
      ∃ r ∈ exTbl5, r.device_id = "device_2") ∧
    run_get_all_devices ([] : Table) = [] :=
  ⟨by decide, (listDevices_spec exTbl5).1, (listDevices_spec exTbl5).2.1,
   (listDevices_spec exTbl5).2.2.1 "device_2",
   (listDevices_spec ([] : Table)).2.2.2 rfl⟩


theorem newerCount_eq (tbl : Table) (dev : String) (ts : Nat) :
    newerCount tbl dev ts =
      List.countP (fun x => decide (ts < x.timestamp))
        (tbl.filter (fun r => decide (r.device_id = dev))) := by
  unfold newerCount
  rw [List.countP_eq_length_filter, List.filter_filter]
  congr 1
  apply List.filter_congr
  intro x _
  by_cases h1 : x.device_id = dev <;> by_cases h2 : ts < x.timestamp <;>
    simp [h1, h2]

theorem mem_take_of_sorted_distinct :
    ∀ (s : List Reading) (n : ℕ) (r : Reading),
      List.Sorted tsDesc s →
      s.Pairwise (fun a b => a.timestamp ≠ b.timestamp) →
      r ∈ s →
      s.countP (fun x => decide (r.timestamp < x.timestamp)) < n →
      r ∈ s.take n
  | [], _, _, _, _, hmem, _ => absurd hmem (List.not_mem_nil _)
  | a :: s, n, r, hsort, hne, hmem, hcount => by
    rcases List.mem_cons.mp hmem with heq | hmem'
    · subst heq
      obtain ⟨m, rfl⟩ : ∃ m, n = m + 1 := ⟨n - 1, by omega⟩
      rw [List.take_succ_cons]
      exact List.mem_cons_self _ _
    · have h1 : tsDesc a r := List.rel_of_sorted_cons hsort r hmem'
      have h2 : a.timestamp ≠ r.timestamp :=
        (List.pairwise_cons.mp hne).1 r hmem'
      have hats : r.timestamp < a.timestamp := lt_of_le_of_ne h1 (Ne.symm h2)
      have hc : List.countP (fun x => decide (r.timestamp < x.timestamp))
            (a :: s) =
          List.countP (fun x => decide (r.timestamp < x.timestamp)) s + 1 := by
        rw [List.countP_cons]
        simp [hats]
      obtain ⟨m, rfl⟩ : ∃ m, n = m + 1 := ⟨n - 1, by omega⟩
      rw [List.take_succ_cons]
      refine List.mem_cons_of_mem _
        (mem_take_of_sorted_distinct s m r hsort.of_cons hne.of_cons hmem' ?_)
      omega

theorem keyUnique_filter_ts_ne (tbl : Table) (dev : String)
    (h : keyUnique tbl) :
    (tbl.filter (fun r => decide (r.device_id = dev))).Pairwise
      (fun a b => a.timestamp ≠ b.timestamp) := by
  have h1 : (tbl.filter (fun r => decide (r.device_id = dev))).Pairwise
      (fun a b => ¬(a.device_id = b.device_id ∧ a.timestamp = b.timestamp)) :=
    List.Pairwise.sublist (List.filter_sublist _) h
  refine h1.imp_of_mem ?_
  intro a b ha hb hnab hts
  have hda : a.device_id = dev := by simpa using (List.mem_filter.mp ha).2
  have hdb : b.device_id = dev := by simpa using (List.mem_filter.mp hb).2
  exact hnab ⟨hda.trans hdb.symm, hts⟩

theorem keyUnique_insertRow (tbl : Table) (r : Reading) (h : keyUnique tbl) :
    keyUnique (insertRow tbl r) := by
  unfold insertRow keyUnique
  rw [List.pairwise_append]
  refine ⟨List.Pairwise.sublist (List.filter_sublist _) h,
    List.pairwise_singleton _ _, ?_⟩
  intro a ha b hb
  rw [List.mem_singleton] at hb
  subst hb
  have hfa := (List.mem_filter.mp ha).2
  simp only [decide_eq_true_eq] at hfa
  exact hfa

/-- C2 -/
theorem insert_then_recentReadings (tbl : Table) (dev ty : String) (ts : Nat)
    (v : ℚ) (lim : Int) (hkey : keyUnique tbl)
    (hrank : ((newerCount (insert_sensor_reading true tbl dev ts ty v).2 dev ts
      : ℤ)) < lim) :
    (⟨dev, ts, ty, v⟩ : Reading) ∈
      (run_get_recent_readings (insert_sensor_reading true tbl dev ts ty v).2
        dev lim).rows := by
  have htbl : (insert_sensor_reading true tbl dev ts ty v).2 =
      insertRow tbl ⟨dev, ts, ty, v⟩ := rfl
  rw [htbl] at hrank ⊢
  have hkey2 : keyUnique (insertRow tbl ⟨dev, ts, ty, v⟩) :=
    keyUnique_insertRow tbl _ hkey
  have hmem : (⟨dev, ts, ty, v⟩ : Reading) ∈ insertRow tbl ⟨dev, ts, ty, v⟩ :=
    List.mem_append_right _ (List.mem_singleton_self _)
  have hlim : 0 < lim := lt_of_le_of_lt (Int.natCast_nonneg _) hrank
  have hrows : (run_get_recent_readings (insertRow tbl ⟨dev, ts, ty, v⟩)
        dev lim).rows =
      (((insertRow tbl ⟨dev, ts, ty, v⟩).filter
        (fun x => decide (x.device_id = dev))).insertionSort tsDesc).take
        lim.toNat := by
    unfold run_get_recent_readings
    rw [selectRecentSem_pos _ dev lim hlim]
    rfl
  rw [hrows]
  have hperm : List.Perm
      (((insertRow tbl ⟨dev, ts, ty, v⟩).filter
        (fun x => decide (x.device_id = dev))).insertionSort tsDesc)
      ((insertRow tbl ⟨dev, ts, ty, v⟩).filter
        (fun x => decide (x.device_id = dev))) :=
    List.perm_insertionSort tsDesc _
  have hmem_l : (⟨dev, ts, ty, v⟩ : Reading) ∈
      (insertRow tbl ⟨dev, ts, ty, v⟩).filter
        (fun x => decide (x.device_id = dev)) :=
    List.mem_filter.mpr ⟨hmem, by simp⟩
  refine mem_take_of_sorted_distinct _ lim.toNat _
    (List.sorted_insertionSort tsDesc _)
    ((hperm.pairwise_iff (fun h => Ne.symm h)).mpr
      (keyUnique_filter_ts_ne _ dev hkey2))
    (hperm.mem_iff.mpr hmem_l) ?_
  rw [hperm.countP_eq]
  have hcnt := newerCount_eq (insertRow tbl ⟨dev, ts, ty, v⟩) dev ts
  have hts : (⟨dev, ts, ty, v⟩ : Reading).timestamp = ts := rfl
  rw [hts]
  omega

/-- C2 witness -/
theorem insert_then_recentReadings_witness :
    (run_get_recent_readings exTbl2 "device_1" 1).rows =
      [⟨"device_1", 2000, "temperature", 24⟩] ∧
    keyUnique ((insert_sensor_reading true [] "device_1" 1000 "temperature"
      (45/2)).2) ∧
    ((newerCount exTbl2 "device_1" 2000 : ℤ)) < 1 ∧
    (⟨"device_1", 2000, "temperature", 24⟩ : Reading) ∈
      (run_get_recent_readings exTbl2 "device_1" 1).rows := by
  refine ⟨rfl, by decide, by decide, ?_⟩
  exact insert_then_recentReadings
    ((insert_sensor_reading true [] "device_1" 1000 "temperature" (45/2)).2)
    "device_1" "temperature" 2000 24 1 (by decide) (by decide)

end IoT

namespace IoT

theorem roundEven_bounds (x : ℚ) :
    x - 1/2 ≤ (roundEven x : ℚ) ∧ (roundEven x : ℚ) ≤ x + 1/2 := by
  have hf1 : ((⌊x⌋ : ℤ) : ℚ) ≤ x := Int.floor_le x
  have hf2 : x < ((⌊x⌋ : ℤ) : ℚ) + 1 := Int.lt_floor_add_one x
  unfold roundEven
  split_ifs with h1 h2 h3 <;> constructor <;> push_cast <;> linarith

theorem round2_mem (lo hi : ℤ) (x : ℚ) (hlo : (lo : ℚ) ≤ x * 100)
    (hhi : x * 100 ≤ (hi : ℚ)) :
    ((lo : ℚ)) / 100 ≤ round2 x ∧ round2 x ≤ ((hi : ℚ)) / 100 := by
  obtain ⟨hb1, hb2⟩ := roundEven_bounds (x * 100)
  have hzlo : lo ≤ roundEven (x * 100) := by
    have hq : ((lo : ℚ)) < (roundEven (x * 100) : ℚ) + 1 := by linarith
    have hz : lo < roundEven (x * 100) + 1 := by exact_mod_cast hq
    omega
  have hzhi : roundEven (x * 100) ≤ hi := by
    have hq : ((roundEven (x * 100) : ℤ) : ℚ) < (hi : ℚ) + 1 := by linarith
    have hz : roundEven (x * 100) < hi + 1 := by exact_mod_cast hq
    omega
  unfold round2
  have hqlo : ((lo : ℚ)) ≤ ((roundEven (x * 100) : ℤ) : ℚ) := by
    exact_mod_cast hzlo
  have hqhi : ((roundEven (x * 100) : ℤ) : ℚ) ≤ ((hi : ℚ)) := by
    exact_mod_cast hzhi
  constructor <;> gcongr

theorem generate_fst (dev : String) (g : GenDraw) :
    (generate_sensor_reading dev g).1 = dev := by
  unfold generate_sensor_reading
  dsimp only
  split_ifs <;> rfl

/-- C9 -/
theorem generate_sensor_reading_spec (dev : String) (g : GenDraw)
    (hu0 : 0 ≤ g.u) (hu1 : g.u ≤ 1) :
    (generate_sensor_reading dev g).1 = dev ∧
    (generate_sensor_reading dev g).2.1 =
      SENSOR_TYPES.get (Fin.cast (by decide) g.idx) ∧
    (generate_sensor_reading dev g).2.1 ∈ SENSOR_TYPES ∧
    ((generate_sensor_reading dev g).2.1 = "temperature" →
      20 ≤ (generate_sensor_reading dev g).2.2 ∧
      (generate_sensor_reading dev g).2.2 ≤ 35 ∧
      ∃ z : ℤ, (generate_sensor_reading dev g).2.2 = (z : ℚ) / 100) ∧
    ((generate_sensor_reading dev g).2.1 = "humidity" →
      30 ≤ (generate_sensor_reading dev g).2.2 ∧
      (generate_sensor_reading dev g).2.2 ≤ 90 ∧
      ∃ z : ℤ, (generate_sensor_reading dev g).2.2 = (z : ℚ) / 100) ∧
    ((generate_sensor_reading dev g).2.1 = "motion" →
      (generate_sensor_reading dev g).2.2 = 0 ∨
      (generate_sensor_reading dev g).2.2 = 1) := by
  obtain ⟨idx, u, bit⟩ := g
  dsimp only at hu0 hu1
  fin_cases idx
  · refine ⟨rfl, rfl, show "temperature" ∈ SENSOR_TYPES by decide, ?_, ?_, ?_⟩
    · intro _
      have hb := round2_mem 2000 3500 (20 + u * (35 - 20))
        (by push_cast; linarith) (by push_cast; linarith)
      have hlo : ((2000 : ℤ) : ℚ) / 100 = 20 := by norm_num
      have hhi : ((3500 : ℤ) : ℚ) / 100 = 35 := by norm_num
      rw [hlo, hhi] at hb
      exact show 20 ≤ round2 (20 + u * (35 - 20)) ∧
        round2 (20 + u * (35 - 20)) ≤ 35 ∧
        ∃ z : ℤ, round2 (20 + u * (35 - 20)) = (z : ℚ) / 100 from
        ⟨hb.1, hb.2, ⟨roundEven ((20 + u * (35 - 20)) * 100), rfl⟩⟩
    · intro h
      exact absurd (show ("temperature" : String) = "humidity" from h) (by decide)
    · intro h
      exact absurd (show ("temperature" : String) = "motion" from h) (by decide)
  · refine ⟨rfl, rfl, show "humidity" ∈ SENSOR_TYPES by decide, ?_, ?_, ?_⟩
    · intro h
      exact absurd (show ("humidity" : String) = "temperature" from h) (by decide)
    · intro _
      have hb := round2_mem 3000 9000 (30 + u * (90 - 30))
        (by push_cast; linarith) (by push_cast; linarith)
      have hlo : ((3000 : ℤ) : ℚ) / 100 = 30 := by norm_num
      have hhi : ((9000 : ℤ) : ℚ) / 100 = 90 := by norm_num
      rw [hlo, hhi] at hb
      exact show 30 ≤ round2 (30 + u * (90 - 30)) ∧
        round2 (30 + u * (90 - 30)) ≤ 90 ∧
        ∃ z : ℤ, round2 (30 + u * (90 - 30)) = (z : ℚ) / 100 from
        ⟨hb.1, hb.2, ⟨roundEven ((30 + u * (90 - 30)) * 100), rfl⟩⟩
    · intro h
      exact absurd (show ("humidity" : String) = "motion" from h) (by decide)
  · refine ⟨rfl, rfl, show "motion" ∈ SENSOR_TYPES by decide, ?_, ?_, ?_⟩
    · intro h
      exact absurd (show ("motion" : String) = "temperature" from h) (by decide)
    · intro h
      exact absurd (show ("motion" : String) = "humidity" from h) (by decide)
    · intro _
      cases bit
      · exact Or.inl rfl
      · exact Or.inr rfl

/-- C9 witness -/
theorem generate_sensor_reading_spec_witness :
    ((0 : ℚ) ≤ 1/2 ∧ (1/2 : ℚ) ≤ 1) ∧
    (generate_sensor_reading "device_1" ⟨0, 1/2, true⟩).1 = "device_1" ∧
    (generate_sensor_reading "device_1" ⟨0, 1/2, true⟩).2.1 ∈ SENSOR_TYPES ∧
    (20 ≤ (generate_sensor_reading "device_1" ⟨0, 1/2, true⟩).2.2 ∧
      (generate_sensor_reading "device_1" ⟨0, 1/2, true⟩).2.2 ≤ 35) := by
  have h := generate_sensor_reading_spec "device_1" ⟨0, 1/2, true⟩
    (by norm_num) (by norm_num)
  have ht := h.2.2.2.1 rfl
  exact ⟨⟨by norm_num, by norm_num⟩, h.1, h.2.2.1, ht.1, ht.2.1⟩

end IoT

namespace IoT

theorem mem_sweep_aux (ts : Nat) (draw : String → GenDraw)
    (insOk : String → Bool) :
    ∀ (ds : List String) (acc : Table) (r : Reading),
      r ∈ ds.foldl (fun acc dev =>
        (insert_sensor_reading (insOk dev) acc
          (generate_sensor_reading dev (draw dev)).1 ts
          (generate_sensor_reading dev (draw dev)).2.1
          (generate_sensor_reading dev (draw dev)).2.2).2) acc →
      r ∈ acc ∨ (r.timestamp = ts ∧ r.device_id ∈ ds)
  | [], _, _, h => Or.inl h
  | d :: ds, acc, r, h => by
    rw [List.foldl_cons] at h
    rcases mem_sweep_aux ts draw insOk ds _ r h with h1 | ⟨h2, h3⟩
    · by_cases hok : insOk d
      · simp only [insert_sensor_reading, if_pos hok] at h1
        rcases List.mem_append.mp h1 with h4 | h4
        · exact Or.inl (List.mem_of_mem_filter h4)
        · rw [List.mem_singleton] at h4
          subst h4
          exact Or.inr ⟨rfl, by
            rw [show (⟨(generate_sensor_reading d (draw d)).1, ts,
                (generate_sensor_reading d (draw d)).2.1,
                (generate_sensor_reading d (draw d)).2.2⟩ : Reading).device_id
              = d from generate_fst d (draw d)]
            exact List.mem_cons_self _ _⟩
      · simp only [insert_sensor_reading, if_neg hok] at h1
        exact Or.inl h1
    · exact Or.inr ⟨h2, List.mem_cons_of_mem _ h3⟩

theorem countP_insertRow_le (p : Reading → Bool) (acc : Table) (x : Reading) :
    List.countP p (insertRow acc x) ≤
      List.countP p acc + (if p x then 1 else 0) := by
  unfold insertRow
  rw [List.countP_append]
  have h1 : List.countP p (acc.filter (fun y =>
      decide (¬(y.device_id = x.device_id ∧ y.timestamp = x.timestamp)))) ≤
      List.countP p acc :=
    List.Sublist.countP_le p (List.filter_sublist _)
  have h2 : List.countP p [x] = if p x then 1 else 0 := by
    rw [List.countP_cons]
    simp [List.countP_nil]
  omega

theorem sweep_count_aux (tbl0 : Table) (ts : Nat) (draw : String → GenDraw)
    (insOk : String → Bool) (dq : String) :
    ∀ (ds : List String) (acc : Table), ds.Nodup →
      List.countP (fun r => decide (r.device_id = dq ∧ r ∉ tbl0))
        (ds.foldl (fun acc dev =>
          (insert_sensor_reading (insOk dev) acc
            (generate_sensor_reading dev (draw dev)).1 ts
            (generate_sensor_reading dev (draw dev)).2.1
            (generate_sensor_reading dev (draw dev)).2.2).2) acc) ≤
      List.countP (fun r => decide (r.device_id = dq ∧ r ∉ tbl0)) acc +
        (if dq ∈ ds then 1 else 0)
  | [], acc, _ => by simp
  | d :: ds, acc, hnd => by
    rw [List.foldl_cons]
    have hih := sweep_count_aux tbl0 ts draw insOk dq ds
      ((insert_sensor_reading (insOk d) acc
        (generate_sensor_reading d (draw d)).1 ts
        (generate_sensor_reading d (draw d)).2.1
        (generate_sensor_reading d (draw d)).2.2).2) hnd.of_cons
    have hstep : List.countP (fun r => decide (r.device_id = dq ∧ r ∉ tbl0))
        ((insert_sensor_reading (insOk d) acc
          (generate_sensor_reading d (draw d)).1 ts
          (generate_sensor_reading d (draw d)).2.1
          (generate_sensor_reading d (draw d)).2.2).2) ≤
        List.countP (fun r => decide (r.device_id = dq ∧ r ∉ tbl0)) acc +
          (if d = dq then 1 else 0) := by
      by_cases hok : insOk d
      · simp only [insert_sensor_reading, if_pos hok]
        refine le_trans (countP_insertRow_le _ _ _) ?_
        have hdev : (⟨(generate_sensor_reading d (draw d)).1, ts,
            (generate_sensor_reading d (draw d)).2.1,
            (generate_sensor_reading d (draw d)).2.2⟩ : Reading).device_id
            = d := generate_fst d (draw d)
        by_cases hd : d = dq
        · split_ifs <;> omega
        · have hpx : (decide ((⟨(generate_sensor_reading d (draw d)).1, ts,
              (generate_sensor_reading d (draw d)).2.1,
              (generate_sensor_reading d (draw d)).2.2⟩ : Reading).device_id
                = dq ∧
              (⟨(generate_sensor_reading d (draw d)).1, ts,
                (generate_sensor_reading d (draw d)).2.1,
                (generate_sensor_reading d (draw d)).2.2⟩ : Reading) ∉ tbl0))
              = false := by
            rw [decide_eq_false_iff_not]
            intro hc
            exact hd (hdev ▸ hc.1)
          rw [hpx]
          simp [hd]
      · simp only [insert_sensor_reading, if_neg hok]
        omega
    by_cases hd : d = dq
    · subst hd
      have hnin : d ∉ ds := (List.nodup_cons.mp hnd).1
      rw [if_neg hnin] at hih
      rw [if_pos rfl] at hstep
      have hmem : d ∈ d :: ds := List.mem_cons_self _ _
      rw [if_pos hmem]
      omega
    · by_cases hds : dq ∈ ds
      · rw [if_pos hds] at hih
        have hmem : dq ∈ d :: ds := List.mem_cons_of_mem _ hds
        rw [if_pos hmem]
        rw [if_neg hd] at hstep
        omega
      · rw [if_neg hds] at hih
        have hnmem : dq ∉ d :: ds := by
          rw [List.mem_cons]
          rintro (h | h)
          · exact hd h.symm
          · exact hds h
        rw [if_neg hnmem]
        rw [if_neg hd] at hstep
        omega

/-- C10 -/
theorem sweep_shared_timestamp (tbl : Table) (ts : Nat)
    (draw : String → GenDraw) (insOk : String → Bool) :
    (∀ r ∈ generate_and_insert_data tbl ts draw insOk,
      r ∈ tbl ∨ (r.timestamp = ts ∧ r.device_id ∈ DEVICE_IDS)) ∧
    (∀ dev : String,
      ((generate_and_insert_data tbl ts draw insOk).filter
        (fun r => decide (r.device_id = dev ∧ r ∉ tbl))).length ≤ 1) := by
  constructor
  · intro r hr
    exact mem_sweep_aux ts draw insOk DEVICE_IDS tbl r hr
  · intro dev
    unfold generate_and_insert_data
    rw [← List.countP_eq_length_filter]
    refine le_trans
      (sweep_count_aux tbl ts draw insOk dev DEVICE_IDS tbl (by decide)) ?_
    have h0 : List.countP (fun r => decide (r.device_id = dev ∧ r ∉ tbl))
        tbl = 0 := by
      rw [List.countP_eq_zero]
      intro a ha
      simp [ha]
    rw [h0]
    split_ifs <;> norm_num

/-- C10 witness -/
theorem sweep_shared_timestamp_witness :
    ((⟨"device_1", 5, "motion", 0⟩ : Reading) ∈ exSweep ∧
      ((⟨"device_1", 5, "motion", 0⟩ : Reading) ∈ ([] : Table) ∨
        ((⟨"device_1", 5, "motion", 0⟩ : Reading).timestamp = 5 ∧
          (⟨"device_1", 5, "motion", 0⟩ : Reading).device_id ∈ DEVICE_IDS))) ∧
    (exSweep.filter (fun r =>
      decide (r.device_id = "device_2" ∧ r ∉ ([] : Table)))).length ≤ 1 := by
  refine ⟨⟨by decide, ?_⟩, ?_⟩
  · exact (sweep_shared_timestamp [] 5 exDraw (fun _ => true)).1 _ (by decide)
  · exact (sweep_shared_timestamp [] 5 exDraw (fun _ => true)).2 "device_2"

end IoT
